import Mathlib

/-!
Verification of the p2p-backend transfer authorization core.

The definitions below are a shallow embedding of the repository's
JavaScript source:

* `api/controllers/transferController.js` (the full controller version,
  with Transfer persistence and the Circle settlement adapter):
  `findUserByIdentifier`, `requestSecurityCode`, `createTransfer`,
  `getUserTransfers`, `getTransferById`, `getTransferStatus`;
* `models/Order.js` (second module in the file, the SecurityCode schema):
  `getValidCode`, `markAsUsed`;
* the Transfer model (schema with `markAsProcessing`, `markAsCompleted`,
  `markAsFailed`, `updateCircleStatus`, `findByUserId`);
* `utils/circleService.js`: `isAvailable`, `getSupportedTokens`,
  `getTokenId`, with `createTransaction` / `getTransactionStatus`
  as oracles of the external service.

Machine integers do not occur; JavaScript numbers that no claim computes
with (amounts, gas fields) are carried as opaque strings or integers.
Dates are milliseconds as `Nat`.  The Mongo collections are lists of
records; the user collection is a query oracle that can also fail, so
that the controller's catch-to-null behaviour is expressible.
-/

namespace P2P

/-! ### Address syntax (the three regexes of the controller) -/

/-- `[a-fA-F0-9]` -/
def isHexChar (c : Char) : Bool :=
  c.isDigit || (Char.ofNat 97 ≤ c && c ≤ Char.ofNat 102) ||
    (Char.ofNat 65 ≤ c && c ≤ Char.ofNat 70)

/-- `[a-zA-Z0-9]` -/
def isAlnumChar (c : Char) : Bool :=
  c.isDigit || c.isLower || c.isUpper

/-- The test `/^0x[a-fA-F0-9]{40}$/.test(s)`. -/
def reEthAddress (s : String) : Bool :=
  match s.data with
  | c1 :: c2 :: rest =>
    c1 == '0' && c2 == 'x' && rest.length == 40 && rest.all isHexChar
  | _ => false

/-- The test `/^[a-zA-Z0-9]{lo,hi}$/.test(s)`. -/
def reAlnumRange (lo hi : Nat) (s : String) : Bool :=
  decide (lo ≤ s.data.length) && decide (s.data.length ≤ hi) && s.data.all isAlnumChar

/-- `isValidWalletAddress` from `requestSecurityCode` / `createTransfer`:
`/^0x[a-fA-F0-9]{40}$/ || /^[a-zA-Z0-9]{26,35}$/ || /^[a-zA-Z0-9]{32,44}$/`. -/
def isValidWalletAddress (s : String) : Bool :=
  reEthAddress s || reAlnumRange 26 35 s || reAlnumRange 32 44 s

/-! ### JSON payloads -/

inductive Json where
  | str : String → Json
  | num : Int → Json
  | bool : Bool → Json
  | null : Json
  | arr : List Json → Json
  | obj : List (String × Json) → Json
deriving Repr

/-- Keys of a top-level JSON object (empty for non-objects). -/
def Json.objKeys : Json → List String
  | .obj fields => fields.map Prod.fst
  | _ => []

def optStr : Option String → Json
  | some s => .str s
  | none => .null

def optNum : Option Nat → Json
  | some n => .num n
  | none => .null

/-- An HTTP response as produced by `res.status(...).json({success, message, data})`. -/
structure Response where
  status : Nat
  success : Bool
  message : String
  data : Option Json
deriving Repr

def resp400 (msg : String) : Response := ⟨400, false, msg, none⟩

def resp500 (msg : String) : Response := ⟨500, false, msg, none⟩

/-! ### SecurityCode model (second module of `models/Order.js`) -/

structure CodeRec where
  userId : String
  transferId : String
  code : String
  recipient : String
  amount : String
  token : String
  blockchain : String
  isUsed : Bool
  expiresAt : Nat
  usedAt : Option Nat
deriving Repr, DecidableEq

/-- `SecurityCode.getValidCode(transferId)`:
`findOne({transferId, isUsed: false, expiresAt: {$gt: new Date()}})`.
The schema puts a unique index on `transferId`, so `findOne` is the
first (only) list entry matching the filter. -/
def getValidCode (codes : List CodeRec) (now : Nat) (transferId : String) :
    Option CodeRec :=
  codes.find? fun c =>
    c.transferId == transferId && c.isUsed == false && decide (now < c.expiresAt)

/-- `securityCode.markAsUsed()`: sets `isUsed` and `usedAt` on the document
and saves it; in the store this rewrites the (unique) document with the
given `transferId`. -/
def markAsUsed (codes : List CodeRec) (now : Nat) (transferId : String) :
    List CodeRec :=
  codes.map fun c =>
    if c.transferId == transferId then
      { c with isUsed := true, usedAt := some now }
    else c

/-! ### Circle service (`utils/circleService.js`) -/

/-- `getSupportedTokens()`: the static inline table, keyed by token symbol. -/
def getSupportedTokens : List (String × String) :=
  [("USDC", "738c8a6d-8896-46d1-b2cb-083600c1c69b"),
   ("USDT", "1c7a3670-bdfa-11e3-9c1a-0800200c9a66"),
   ("ETH", "2a5c0a8c-8896-46d1-b2cb-083600c1c69b")]

/-- The `${symbol}_${chain}`.toUpperCase() key that `getTokenId` computes
on its first line and then never uses. -/
def getTokenKey (symbol chain : String) : String :=
  (symbol ++ "_" ++ chain).toUpper

/-- `getTokenId(symbol, chain)`: despite computing the pair key, the source
returns `tokens[symbol] || null`, a lookup keyed by the symbol alone. -/
def getTokenId (symbol chain : String) : Option String :=
  let _key := getTokenKey symbol chain
  (getSupportedTokens.lookup symbol)

/-! ### Users and the user store -/

/-- JavaScript truthiness of a possibly-absent string
(`undefined` and `''` are falsy). -/
def truthyS : Option String → Bool
  | some s => !s.isEmpty
  | none => false

/-- `a || b` on a possibly-absent string. -/
def jsOr (o : Option String) (dflt : String) : String :=
  match o with
  | some s => if s.isEmpty then dflt else s
  | none => dflt

/-- One chain's entry of the `wallet` subdocument of the User schema. -/
structure WalletSlot where
  walletId : Option String
  walletAddress : Option String
deriving Repr, DecidableEq

structure UserRec where
  uid : String
  email : String
  /-- chain name (`ethereum` / `polygon` / `arbitrum`) → wallet slot;
  `this.wallet?.[chain]` is a lookup in this association list. -/
  wallet : List (String × WalletSlot)
  defaultChain : Option String
deriving Repr, DecidableEq

/-- `user.getWalletInfo(chain)` returns this object when the user has a
wallet on the chain. -/
structure WalletDetails where
  walletId : String
  walletAddress : String
  blockchain : String
deriving Repr, DecidableEq

/-- `getWalletInfo(chain)`: `if (this.hasWallet(chain)) {walletId,
walletAddress, blockchain: chain} else null`, where `hasWallet` demands
truthy `walletId` and `walletAddress`. -/
def UserRec.getWalletInfo (u : UserRec) (chain : String) : Option WalletDetails :=
  match u.wallet.lookup chain with
  | some slot =>
    match slot.walletId, slot.walletAddress with
    | some wid, some waddr =>
      if !wid.isEmpty && !waddr.isEmpty then some ⟨wid, waddr, chain⟩ else none
    | _, _ => none
  | none => none

/-- Outcome of one Mongo query against the User collection: a match, no
match, or a thrown store error. -/
inductive Lookup where
  | found : UserRec → Lookup
  | absent : Lookup
  | err : String → Lookup

/-- The User collection as the controller queries it: by `uid`
(`User.findByUid`), by lowercased email (`User.findOne({email})`), and by
wallet address across the three chains (the `$or` wallet query). -/
structure UserStore where
  byUid : String → Lookup
  byEmail : String → Lookup
  byWallet : String → Lookup

/-- `findUserByIdentifier` from the transfer controller.  The whole lookup
chain sits in one `try`; a store error anywhere is caught, logged and
turned into `null`, indistinguishable from an absent user. -/
def findUserByIdentifier (db : UserStore) (identifier : String) : Option UserRec :=
  if identifier.isEmpty then none
  else
    match db.byUid identifier with
    | .err _ => none
    | .found u => some u
    | .absent =>
      match db.byEmail identifier.toLower with
      | .err _ => none
      | .found u => some u
      | .absent =>
        match db.byWallet identifier with
        | .err _ => none
        | .found u => some u
        | .absent => none

/-! ### Transfer model -/

structure TransferRec where
  id : String
  senderId : String
  recipient : String
  recipientType : String
  recipientUserId : Option String
  /-- `parseFloat(amount)`; no claim computes with the numeric value, so the
  amount is carried opaquely. -/
  amount : String
  token : String
  memo : Option String
  securityCode : String
  blockchain : String
  status : String
  circleTransactionId : Option String
  circleTransactionStatus : String
  transactionHash : Option String
  gasUsed : Option Nat
  gasPrice : Option Nat
  feeAmount : Option Nat
  errorMessage : Option String
  retryCount : Nat
  createdAt : Nat
  updatedAt : Nat
  completedAt : Option Nat
deriving Repr, DecidableEq

/-- `transfer.markAsProcessing()`. -/
def TransferRec.markAsProcessing (t : TransferRec) (now : Nat) : TransferRec :=
  { t with status := "processing", updatedAt := now }

/-- `transfer.markAsCompleted(circleTransactionId, transactionHash)`. -/
def TransferRec.markAsCompleted (t : TransferRec) (now : Nat)
    (cid hash : Option String) : TransferRec :=
  { t with status := "completed", circleTransactionId := cid,
           circleTransactionStatus := "confirmed", transactionHash := hash,
           completedAt := some now, updatedAt := now }

/-- `transfer.markAsFailed(errorMessage)`. -/
def TransferRec.markAsFailed (t : TransferRec) (now : Nat) (msg : String) : TransferRec :=
  { t with status := "failed", errorMessage := some msg, updatedAt := now }

/-- `transfer.updateCircleStatus(status)`. -/
def TransferRec.updateCircleStatus (t : TransferRec) (now : Nat) (s : String) : TransferRec :=
  { t with circleTransactionStatus := s, updatedAt := now }

/-- The `enum` of the Transfer schema's `blockchain` path: `save()`
rejects any other value with a Mongoose ValidationError. -/
def transferBlockchainEnum : List String :=
  ["ARB", "ARB-SEPOLIA", "AVAX", "AVAX-FUJI", "BASE", "BASE-SEPOLIA",
   "ETH", "ETH-SEPOLIA", "MATIC", "MATIC-AMOY", "OP", "OP-SEPOLIA",
   "SOL", "SOL-DEVNET", "UNI", "UNI-SEPOLIA"]

/-- Save-time schema validation of a new Transfer document: the
enum-restricted paths whose values vary on the reachable path —
`blockchain` and `recipientType`.  (The other validated paths are pinned
where the first `save()` runs: `securityCode` equals a stored 6-digit
code by the equality check, `status` is the literal `'pending'`, and
`amount` is opaque in this model.) -/
def transferSchemaOk (t : TransferRec) : Bool :=
  transferBlockchainEnum.contains t.blockchain &&
    (t.recipientType == "internal" || t.recipientType == "external")

/-- `transfer.save()` on an existing document: rewrite the document with
the same `_id`.  (Re-saves after the initial insert leave the
enum-validated paths unchanged or set them to in-enum constants —
`'processing'`/`'completed'`/`'failed'`, `'pending'`/`'confirmed'` — so
validation passes and they are modelled as unconditional writes.) -/
def saveTransfer (ts : List TransferRec) (t : TransferRec) : List TransferRec :=
  ts.map fun x => if x.id == t.id then t else x

/-- `Transfer.findById` (`findOne({_id: id})`). -/
def findTransferById (ts : List TransferRec) (id : String) : Option TransferRec :=
  ts.find? fun t => t.id == id

def insertByCreatedDesc (t : TransferRec) : List TransferRec → List TransferRec
  | [] => [t]
  | x :: xs =>
    if x.createdAt < t.createdAt then t :: x :: xs else x :: insertByCreatedDesc t xs

/-- `.sort({createdAt: -1})` (stable, newest first). -/
def sortByCreatedDesc : List TransferRec → List TransferRec
  | [] => []
  | x :: xs => insertByCreatedDesc x (sortByCreatedDesc xs)

/-- `Transfer.findByUserId(userId)`: sender or internal recipient, newest
first. -/
def findByUserId (ts : List TransferRec) (uid : String) : List TransferRec :=
  sortByCreatedDesc (ts.filter fun t => t.senderId == uid || t.recipientUserId == some uid)

/-! ### Circle settlement oracle -/

structure TxParams where
  senderWalletId : String
  destinationAddress : String
  tokenId : String
  amount : String
  feeLevel : String
deriving Repr, DecidableEq

/-- Shape of the objects `circleService.createTransaction` /
`getTransactionStatus` return (they catch internally and report
`success:false` rather than throwing). -/
structure CircleResult where
  success : Bool
  transactionId : Option String
  transactionHash : Option String
  status : String
  error : String
  payload : Json

/-- The external Circle service, as consumed through the adapter:
`available` is `isAvailable()` (client configured), `createTx` and
`txStatus` are the two remote calls as oracles. -/
structure CircleEnv where
  available : Bool
  createTx : TxParams → CircleResult
  txStatus : String → CircleResult

/-! ### Global state of one orchestration request -/

structure St where
  users : UserStore
  codes : List CodeRec
  transfers : List TransferRec
  /-- `Date.now()` in ms. -/
  now : Nat
  /-- the next `uuidv4()`. -/
  freshTransferId : String
  /-- the next `generateSecurityCode()`. -/
  freshCode : String
  /-- the `_id` Mongo assigns to a newly inserted Transfer. -/
  freshDbId : String
  /-- outcome of `sendSecurityCodeEmail`. -/
  emailOk : Bool
  circle : CircleEnv
  /-- instrumentation: every `createTransaction` call made so far. -/
  txLog : List TxParams

/-! ### Request bodies -/

/-- Body of `POST /transfers/request-code` and `POST /transfers`.  Absent
string fields are `none`/`""` (both falsy in the source's `!x` checks). -/
structure TransferReq where
  recipient : String
  recipientType : String
  amount : String
  token : String
  memo : Option String
  securityCode : String
  transferId : String
  senderId : String
  blockchain : Option String
deriving Repr, DecidableEq

/-! ### `requestSecurityCode` -/

/-- Lines of `requestSecurityCode` after sender/recipient validation:
generate `transferId` and the 6-digit code, persist the SecurityCode with
`expiresAt = now + 5min`, send the email, delete the record again
(`findByIdAndDelete`) when the email fails. -/
def requestCodeIssue (st : St) (req : TransferReq) (senderUser : UserRec) :
    St × Response :=
  let transferId := st.freshTransferId
  let securityCode := st.freshCode
  let newCode : CodeRec :=
    { userId := senderUser.uid, transferId := transferId, code := securityCode,
      recipient := req.recipient, amount := req.amount, token := req.token,
      blockchain := jsOr req.blockchain "ETH",
      isUsed := false, expiresAt := st.now + 5 * 60 * 1000, usedAt := none }
  let st1 := { st with codes := st.codes ++ [newCode] }
  if !st.emailOk then
    ({ st1 with codes := st.codes }, resp500 "Failed to send security code email")
  else
    (st1, ⟨200, true, "Security code sent to your email",
      some (.obj [("transferId", .str transferId),
                  ("expiresIn", .str "5 minutes")])⟩)

/-- `requestSecurityCode(req, res)`. -/
def requestSecurityCode (st : St) (req : TransferReq) : St × Response :=
  if req.senderId.isEmpty then (st, resp400 "Sender ID is required")
  else
    match findUserByIdentifier st.users req.senderId with
    | none => (st, resp400 "Sender not found")
    | some senderUser =>
      if req.recipientType == "internal" then
        match findUserByIdentifier st.users req.recipient with
        | none => (st, resp400 "Internal recipient not found")
        | some _ => requestCodeIssue st req senderUser
      else if req.recipientType == "external" then
        if !isValidWalletAddress req.recipient then
          (st, resp400 "Invalid external wallet address format")
        else requestCodeIssue st req senderUser
      else
        (st, resp400 "Invalid recipient type. Must be \"internal\" or \"external\"")

/-! ### `createTransfer` -/

/-- `createTransfer(req, res)`, translated as the source executes.  After
recipient validation the controller logs `'Transfer creation requested'`
with a property `blockchain: selectedBlockchain`.  `selectedBlockchain`
is a `const` declared only about fifty lines further down in the same
scope, so evaluating that object literal throws a `ReferenceError`
(temporal dead zone); the function's outer `catch` converts it into the
500 `'Internal server error'` response.  No store write has happened at
that point, so the state is returned unchanged: the security-code
validation, code consumption, Transfer creation and settlement logic
further down in the function body are unreachable. -/
def createTransfer (st : St) (req : TransferReq) : St × Response :=
  if req.senderId.isEmpty then (st, resp400 "Sender ID is required")
  else
    match findUserByIdentifier st.users req.senderId with
    | none => (st, resp400 "Sender not found")
    | some _senderUser =>
      if req.recipientType == "internal" then
        match findUserByIdentifier st.users req.recipient with
        | none => (st, resp400 "Internal recipient not found")
        | some _ => (st, resp500 "Internal server error")
      else if req.recipientType == "external" then
        if !isValidWalletAddress req.recipient then
          (st, resp400 "Invalid external wallet address format")
        else (st, resp500 "Internal server error")
      else
        (st, resp400 "Invalid recipient type. Must be \"internal\" or \"external\"")

/-- Token resolution, Transfer persistence and settlement
(`createTransfer` from the `getTokenId` call onward), for a sender wallet
and destination address already resolved.  For an internal recipient the
`new Transfer({...})` literal reads `recipientUser.uid`, but
`recipientUser` is a `const` of the destination-resolution block and out
of scope there, so the literal throws a `ReferenceError`, caught by the
outer `catch` (the code was already consumed by then).  For an external
recipient, `await transfer.save()` runs the Transfer schema validation:
a `blockchain` outside the schema's enum (in particular every lowercase
User-wallet chain `ethereum`/`polygon`/`arbitrum`, the only values
`getWalletInfo` lets through) makes `save()` throw a ValidationError,
also caught by the outer `catch` → 500, before `isAvailable()` is ever
consulted and with nothing written to the Transfer collection. -/
def transferSubmit (st1 : St) (req : TransferReq) (senderUser : UserRec)
    (senderWalletInfo : WalletDetails) (selectedBlockchain destinationAddress : String) :
    St × Response :=
  match getTokenId req.token selectedBlockchain with
  | none =>
    (st1, resp400 ("Token " ++ req.token ++ " is not supported on " ++ selectedBlockchain))
  | some tokenId =>
    if req.recipientType == "internal" then
      (st1, resp500 "Internal server error")
    else
      let transfer : TransferRec :=
        { id := st1.freshDbId, senderId := senderUser.uid,
          recipient := destinationAddress, recipientType := req.recipientType,
          recipientUserId := none, amount := req.amount, token := req.token,
          memo := req.memo, securityCode := req.securityCode,
          blockchain := selectedBlockchain, status := "pending",
          circleTransactionId := none, circleTransactionStatus := "pending",
          transactionHash := none, gasUsed := none, gasPrice := none,
          feeAmount := none, errorMessage := none, retryCount := 0,
          createdAt := st1.now, updatedAt := st1.now, completedAt := none }
      if !(transferSchemaOk transfer) then
        (st1, resp500 "Internal server error")
      else
      let st2 := { st1 with transfers := st1.transfers ++ [transfer] }
      if !st2.circle.available then
        let failed := transfer.markAsFailed st2.now "Circle API service not available"
        ({ st2 with transfers := saveTransfer st2.transfers failed },
         ⟨503, false, "Blockchain service temporarily unavailable. Please try again later.",
          some (.obj [("transferId", .str transfer.id), ("status", .str "failed"),
                      ("error", .str "Circle API service not available")])⟩)
      else
        let processing := transfer.markAsProcessing st2.now
        let st3 := { st2 with transfers := saveTransfer st2.transfers processing }
        let params : TxParams :=
          ⟨senderWalletInfo.walletId, destinationAddress, tokenId, req.amount, "MEDIUM"⟩
        let st4 := { st3 with txLog := st3.txLog ++ [params] }
        let circleResponse := st4.circle.createTx params
        if circleResponse.success then
          let withCid := { processing with
            circleTransactionId := circleResponse.transactionId,
            circleTransactionStatus := "pending", updatedAt := st4.now }
          let completed := withCid.markAsCompleted st4.now
            circleResponse.transactionId circleResponse.transactionHash
          let st5 := { st4 with
            transfers := saveTransfer (saveTransfer st4.transfers withCid) completed }
          -- absent-valued properties (`undefined` in the source's object
          -- literal) are rendered as JSON null here; the raw request field
          -- `blockchain`, omitted by JSON.stringify when undefined, is
          -- dropped from the object in that case.
          (st5, ⟨200, true, "Transfer completed successfully",
            some (.obj ([("transferId", .str transfer.id),
                         ("circleTransactionId", optStr circleResponse.transactionId),
                         ("status", .str "completed"),
                         ("transactionHash", optStr circleResponse.transactionHash)] ++
                        (match req.blockchain with
                         | some b => [("blockchain", Json.str b)]
                         | none => []) ++
                        [("amount", .str req.amount), ("token", .str req.token)]))⟩)
        else
          let failed := processing.markAsFailed st4.now circleResponse.error
          ({ st4 with transfers := saveTransfer st4.transfers failed },
           ⟨400, false, "Transfer failed: " ++ circleResponse.error,
            some (.obj [("transferId", .str transfer.id), ("status", .str "failed"),
                        ("error", .str circleResponse.error)])⟩)

/-- Security-code validation and consumption onward (`createTransfer`
lines from the `securityCode && transferId` presence check to the end),
reachable only in the hoisted variant below. -/
def createTransferChecked (st : St) (req : TransferReq) (senderUser : UserRec) :
    St × Response :=
  if req.securityCode.isEmpty || req.transferId.isEmpty then
    (st, resp400 "Security code and transfer ID are required")
  else
    match getValidCode st.codes st.now req.transferId with
    | none => (st, resp400 "Invalid or expired security code")
    | some validSecurityCode =>
      if validSecurityCode.code != req.securityCode then
        (st, resp400 "Invalid security code")
      else if validSecurityCode.userId != senderUser.uid then
        (st, ⟨403, false, "Security code does not belong to this user", none⟩)
      else
        let st1 := { st with
          codes := markAsUsed st.codes st.now validSecurityCode.transferId }
        let selectedBlockchain :=
          jsOr req.blockchain (jsOr senderUser.defaultChain "ETH-SEPOLIA")
        match senderUser.getWalletInfo selectedBlockchain with
        | none =>
          (st1, resp400 ("Sender does not have a wallet configured for " ++ selectedBlockchain))
        | some senderWalletInfo =>
          if req.recipientType == "internal" then
            match findUserByIdentifier st1.users req.recipient with
            | none => (st1, resp400 "Recipient not found for internal transfer")
            | some recipientUser =>
              match recipientUser.getWalletInfo selectedBlockchain with
              | none =>
                (st1, resp400 ("Recipient does not have a wallet configured for " ++ selectedBlockchain))
              | some recipientWalletInfo =>
                transferSubmit st1 req senderUser senderWalletInfo
                  selectedBlockchain recipientWalletInfo.walletAddress
          else
            transferSubmit st1 req senderUser senderWalletInfo
              selectedBlockchain req.recipient

/-- `createTransfer` with the one slip repaired: the `selectedBlockchain`
declaration hoisted above the log line that mentions it (the evident
intent of the source).  Identical to `createTransfer` up to the point of
the `ReferenceError`, and a faithful translation of the source from
there on. -/
def createTransferHoisted (st : St) (req : TransferReq) : St × Response :=
  if req.senderId.isEmpty then (st, resp400 "Sender ID is required")
  else
    match findUserByIdentifier st.users req.senderId with
    | none => (st, resp400 "Sender not found")
    | some senderUser =>
      if req.recipientType == "internal" then
        match findUserByIdentifier st.users req.recipient with
        | none => (st, resp400 "Internal recipient not found")
        | some _ => createTransferChecked st req senderUser
      else if req.recipientType == "external" then
        if !isValidWalletAddress req.recipient then
          (st, resp400 "Invalid external wallet address format")
        else createTransferChecked st req senderUser
      else
        (st, resp400 "Invalid recipient type. Must be \"internal\" or \"external\"")

/-! ### Read endpoints -/

/-- The sanitized history entry of `getUserTransfers` (the explicit field
list the controller maps each transfer through). -/
def sanitizeTransfer (t : TransferRec) : Json :=
  .obj [("id", .str t.id), ("senderId", .str t.senderId),
        ("recipient", .str t.recipient), ("recipientType", .str t.recipientType),
        ("amount", .str t.amount), ("token", .str t.token),
        ("memo", optStr t.memo), ("status", .str t.status),
        ("blockchain", .str t.blockchain),
        ("circleTransactionStatus", .str t.circleTransactionStatus),
        ("transactionHash", optStr t.transactionHash),
        ("createdAt", .num t.createdAt), ("completedAt", optNum t.completedAt),
        ("errorMessage", optStr t.errorMessage)]

/-- The sanitized detail object of `getTransferById`. -/
def sanitizeTransferDetail (t : TransferRec) : Json :=
  .obj [("id", .str t.id), ("senderId", .str t.senderId),
        ("recipient", .str t.recipient), ("recipientType", .str t.recipientType),
        ("amount", .str t.amount), ("token", .str t.token),
        ("memo", optStr t.memo), ("status", .str t.status),
        ("blockchain", .str t.blockchain),
        ("circleTransactionId", optStr t.circleTransactionId),
        ("circleTransactionStatus", .str t.circleTransactionStatus),
        ("transactionHash", optStr t.transactionHash),
        ("gasUsed", optNum t.gasUsed), ("gasPrice", optNum t.gasPrice),
        ("feeAmount", optNum t.feeAmount),
        ("createdAt", .num t.createdAt), ("updatedAt", .num t.updatedAt),
        ("completedAt", optNum t.completedAt),
        ("errorMessage", optStr t.errorMessage)]

/-- `getUserTransfers(req, res)` (`GET /transfers?userId=`). -/
def getUserTransfers (st : St) (userId : String) : St × Response :=
  if userId.isEmpty then (st, resp400 "User ID is required")
  else
    match findUserByIdentifier st.users userId with
    | none => (st, resp400 "User not found")
    | some user =>
      let transfers := findByUserId st.transfers user.uid
      (st, ⟨200, true, "User transfers retrieved successfully",
        some (.obj [("transfers", .arr (transfers.map sanitizeTransfer)),
                    ("total", .num transfers.length)])⟩)

/-- `getTransferById(req, res)` (`GET /transfers/:id?userId=`). -/
def getTransferById (st : St) (id userId : String) : St × Response :=
  if userId.isEmpty then (st, resp400 "User ID is required")
  else
    match findUserByIdentifier st.users userId with
    | none => (st, resp400 "User not found")
    | some user =>
      match findTransferById st.transfers id with
      | none => (st, ⟨404, false, "Transfer not found", none⟩)
      | some transfer =>
        if transfer.senderId != user.uid && transfer.recipientUserId != some user.uid then
          (st, ⟨403, false, "Access denied to this transfer", none⟩)
        else
          (st, ⟨200, true, "Transfer details retrieved successfully",
            some (sanitizeTransferDetail transfer)⟩)

/-- `getTransferStatus(req, res)` (`GET /transfers/status/:id?userId=`):
after the access check, refreshes `circleTransactionStatus` from the
Circle oracle when a `circleTransactionId` exists and the service is
available, then reports the (possibly refreshed) document. -/
def getTransferStatus (st : St) (id userId : String) : St × Response :=
  if userId.isEmpty then (st, resp400 "User ID is required")
  else
    match findUserByIdentifier st.users userId with
    | none => (st, resp400 "User not found")
    | some user =>
      match findTransferById st.transfers id with
      | none => (st, ⟨404, false, "Transfer not found", none⟩)
      | some transfer =>
        if transfer.senderId != user.uid && transfer.recipientUserId != some user.uid then
          (st, ⟨403, false, "Access denied to this transfer", none⟩)
        else
          let refreshed :=
            if truthyS transfer.circleTransactionId && st.circle.available then
              let circleResponse := st.circle.txStatus
                (transfer.circleTransactionId.getD "")
              if circleResponse.success then
                if circleResponse.status != transfer.circleTransactionStatus then
                  (transfer.updateCircleStatus st.now circleResponse.status,
                   some circleResponse.payload, true)
                else (transfer, some circleResponse.payload, false)
              else (transfer, none, false)
            else (transfer, none, false)
          let t2 := refreshed.1
          let st2 :=
            if refreshed.2.2 then { st with transfers := saveTransfer st.transfers t2 }
            else st
          (st2, ⟨200, true, "Transfer status retrieved successfully",
            some (.obj
              ([("id", .str t2.id), ("status", .str t2.status),
                ("blockchain", .str t2.blockchain),
                ("circleTransactionId", optStr t2.circleTransactionId),
                ("circleTransactionStatus", .str t2.circleTransactionStatus),
                ("transactionHash", optStr t2.transactionHash),
                ("createdAt", .num t2.createdAt), ("updatedAt", .num t2.updatedAt),
                ("completedAt", optNum t2.completedAt),
                ("errorMessage", optStr t2.errorMessage)] ++
               (match refreshed.2.1 with
                | some p => [("circleStatus", p)]
                | none => [])))⟩)

/-! ### The code-consumption step, split at its two store operations

`createTransfer` consumes a security code with two separate store
operations: a `findOne` read (`SecurityCode.getValidCode`) followed by
in-memory checks, and a later `save` write (`markAsUsed`).  The split
below makes the interleavings of two concurrent `execute` calls
expressible: each call is one read step and one write step against the
shared code collection. -/

/-- The read half: `getValidCode` plus the code-match and ownership
checks (all computed from the snapshot the read returned).  `some c`
means the call passed validation and proceeds to consume `c`. -/
def consumeRead (codes : List CodeRec) (now : Nat)
    (transferId suppliedCode uid : String) : Option CodeRec :=
  match getValidCode codes now transferId with
  | none => none
  | some c =>
    if c.code != suppliedCode then none
    else if c.userId != uid then none
    else some c

/-- The write half: `markAsUsed` (a `save` of the document the read
returned). -/
def consumeWrite (codes : List CodeRec) (now : Nat) (c : CodeRec) : List CodeRec :=
  markAsUsed codes now c.transferId

/-- Two copies of the consumption step on the same `transferId`/code,
interleaved read₁‑read₂‑write₁‑write₂ (both reads before either write).
Returns whether each call passed validation, and the final store. -/
def raceInterleaved (codes : List CodeRec) (now : Nat) (tid sc uid : String) :
    (Bool × Bool) × List CodeRec :=
  let r1 := consumeRead codes now tid sc uid
  let r2 := consumeRead codes now tid sc uid
  let codes1 := match r1 with | some c => consumeWrite codes now c | none => codes
  let codes2 := match r2 with | some c => consumeWrite codes1 now c | none => codes1
  ((r1.isSome, r2.isSome), codes2)

/-- The same two calls run sequentially: call 2 reads only after call 1's
write. -/
def raceSequential (codes : List CodeRec) (now : Nat) (tid sc uid : String) :
    (Bool × Bool) × List CodeRec :=
  let r1 := consumeRead codes now tid sc uid
  let codes1 := match r1 with | some c => consumeWrite codes now c | none => codes
  let r2 := consumeRead codes1 now tid sc uid
  let codes2 := match r2 with | some c => consumeWrite codes1 now c | none => codes1
  ((r1.isSome, r2.isSome), codes2)

/-! ### Transfer state-machine operations as a trace -/

/-- The write operations the codebase ever applies to an existing
Transfer document. -/
inductive TOp where
  | processing
  | completed (cid hash : Option String)
  | failed (msg : String)
  | circleStatus (s : String)
deriving Repr, DecidableEq

def applyOp (now : Nat) (t : TransferRec) : TOp → TransferRec
  | .processing => t.markAsProcessing now
  | .completed cid hash => t.markAsCompleted now cid hash
  | .failed msg => t.markAsFailed now msg
  | .circleStatus s => t.updateCircleStatus now s

def applyOps (now : Nat) (t : TransferRec) : List TOp → TransferRec
  | [] => t
  | op :: ops => applyOps now (applyOp now t op) ops

/-- The operation sequences the controller can apply to one Transfer
document over its lifetime, read off the call sites: `createTransfer`
applies `markAsFailed` (service unavailable), or `markAsProcessing`
followed by `markAsCompleted` (submission accepted), or
`markAsProcessing` followed by `markAsFailed` (submission rejected or
raised); afterwards each `getTransferStatus` call may apply one
`updateCircleStatus`.  No call site applies anything else to an existing
document, so this over-approximates what the shipped code reaches (the
`createTransfer` sequences are in fact dead code behind the
`selectedBlockchain` ReferenceError). -/
inductive ReachableOps : List TOp → Prop
  | unavailable (msg : String) : ReachableOps [.failed msg]
  | submitOk (cid hash : Option String) :
      ReachableOps [.processing, .completed cid hash]
  | submitFail (msg : String) : ReachableOps [.processing, .failed msg]
  | refresh (ops : List TOp) (s : String) :
      ReachableOps ops → ReachableOps (ops ++ [.circleStatus s])

def isTerminalStatus (s : String) : Bool :=
  s == "completed" || s == "failed" || s == "cancelled"

/-- `b` agrees with `a` on every Transfer field other than
`circleTransactionStatus` (the external status mirror) and the
`updatedAt` bookkeeping timestamp that every save refreshes: `b` is `a`
with at most those two fields replaced.  In particular `b.status =
a.status`. -/
def agreesExceptEnrichment (a b : TransferRec) : Prop :=
  b = { a with circleTransactionStatus := b.circleTransactionStatus,
               updatedAt := b.updatedAt }

/-! ### Deep key search in JSON payloads -/

mutual

/-- Does the JSON value contain a property named `k`, at any depth? -/
def Json.hasKey (k : String) : Json → Bool
  | .str _ => false
  | .num _ => false
  | .bool _ => false
  | .null => false
  | .arr xs => Json.anyHasKey k xs
  | .obj fs => Json.fieldsHasKey k fs

def Json.anyHasKey (k : String) : List Json → Bool
  | [] => false
  | x :: xs => Json.hasKey k x || Json.anyHasKey k xs

def Json.fieldsHasKey (k : String) : List (String × Json) → Bool
  | [] => false
  | (k', v) :: fs => k' == k || Json.hasKey k v || Json.fieldsHasKey k fs

end

/-- Does a response's JSON body contain a property named `k` anywhere? -/
def respHasKey (k : String) (r : Response) : Bool :=
  match r.data with
  | some j => j.hasKey k
  | none => false

/-! ### Structural (propositional) views of the address shapes -/

/-- The hex-prefixed fixed-length shape: `0x` followed by exactly 40 hex
characters. -/
def HexShape (s : String) : Prop :=
  ∃ rest, s.data = '0' :: 'x' :: rest ∧ rest.length = 40 ∧
    ∀ c ∈ rest, isHexChar c = true

/-- An alphanumeric string of length between `lo` and `hi`. -/
def AlnumShape (lo hi : Nat) (s : String) : Prop :=
  lo ≤ s.data.length ∧ s.data.length ≤ hi ∧ ∀ c ∈ s.data, isAlnumChar c = true

/-- Modelled from the spec: the external-address classifier as the spec
words it — hex-prefixed fixed-length, Base58-style **25–35** characters,
Base62-style 32–44 characters (character classes as in the source
regexes).  To be compared against `isValidWalletAddress`, whose middle
range is 26–35. -/
def specAddressShapes (s : String) : Bool :=
  reEthAddress s || reAlnumRange 25 35 s || reAlnumRange 32 44 s

/-! ### Concrete fixtures used by the closed theorems -/

/-- A well-formed external destination: `0x` plus 40 hex characters. -/
def extAddr : String := "0xa1b2c3d4e5f6a7b8c9d0a1b2c3d4e5f6a7b8c9d0"

/-- A 25-character alphanumeric address (inside the spec's stated
Base58-style range, outside the source's 26–35 regex). -/
def addr25 : String := "aaaaaaaaaaaaaaaaaaaaaaaaa"

def alice : UserRec :=
  { uid := "alice-uid", email := "alice@example.com",
    wallet := [("ethereum", ⟨some "wallet-alice-eth", some "0xfeedfeedfeedfeedfeedfeedfeedfeedfeedfeed"⟩)],
    defaultChain := some "ethereum" }

/-- A user store holding exactly alice (queryable by uid). -/
def usersDb : UserStore :=
  { byUid := fun s => if s == "alice-uid" then .found alice else .absent,
    byEmail := fun _ => .absent,
    byWallet := fun _ => .absent }

/-- A Circle oracle that accepts submissions. -/
def circleHappy : CircleEnv :=
  { available := true,
    createTx := fun _ =>
      { success := true, transactionId := some "ctx-1",
        transactionHash := some "0xhash1", status := "pending",
        error := "", payload := .null },
    txStatus := fun _ =>
      { success := true, transactionId := some "ctx-1",
        transactionHash := some "0xhash1", status := "confirmed",
        error := "", payload := .null } }

/-- A security code issued to alice for transfer `tid-1`, expiring at
t = 300000 ms. -/
def codeAlice : CodeRec :=
  { userId := "alice-uid", transferId := "tid-1", code := "123456",
    recipient := extAddr, amount := "100.50", token := "USDC",
    blockchain := "ETH", isUsed := false, expiresAt := 300000, usedAt := none }

/-- State at t = 60000 ms (code valid for another 4 minutes). -/
def stGood : St :=
  { users := usersDb, codes := [codeAlice], transfers := [], now := 60000,
    freshTransferId := "tid-2", freshCode := "654321", freshDbId := "tr-1",
    emailOk := true, circle := circleHappy, txLog := [] }

/-- The matching execute request from alice. -/
def reqExec : TransferReq :=
  { recipient := extAddr, recipientType := "external", amount := "100.50",
    token := "USDC", memo := none, securityCode := "123456",
    transferId := "tid-1", senderId := "alice-uid", blockchain := none }

/-- The same code but issued to a different user. -/
def codeBob : CodeRec := { codeAlice with userId := "bob-uid" }

def stBobCode : St := { stGood with codes := [codeBob] }

/-- `stGood` 100 s after the code expired. -/
def stExpired : St := { stGood with now := 400000 }

/-- `stGood` with no security code on file. -/
def stNoCode : St := { stGood with codes := [] }

/-- The Circle oracle with no credentials configured
(`isAvailable() = false`). -/
def circleDown : CircleEnv := { circleHappy with available := false }

def stNoCircle : St := { stGood with circle := circleDown }

/-- A completed transfer of alice with an outstanding Circle reference. -/
def transferDone : TransferRec :=
  { id := "tr-9", senderId := "alice-uid", recipient := extAddr,
    recipientType := "external", recipientUserId := none, amount := "100.50",
    token := "USDC", memo := none, securityCode := "123456",
    blockchain := "ethereum", status := "completed",
    circleTransactionId := some "ctx-1", circleTransactionStatus := "pending",
    transactionHash := some "0xhash1", gasUsed := none, gasPrice := none,
    feeAmount := none, errorMessage := none, retryCount := 0,
    createdAt := 50000, updatedAt := 50000, completedAt := some 50000 }

def stWithTransfer : St := { stGood with transfers := [transferDone] }

/-- A freshly created (pending) transfer document. -/
def pendingT : TransferRec :=
  { transferDone with
    id := "tr-0", status := "pending",
    circleTransactionId := none, transactionHash := none,
    circleTransactionStatus := "pending", completedAt := none }

/-- A user store whose uid query throws (the Mongo layer failing). -/
def dbErr : UserStore :=
  { byUid := fun _ => .err "connection reset",
    byEmail := fun _ => .absent,
    byWallet := fun _ => .absent }

def stErr : St := { stGood with users := dbErr }

/-! ## Supporting lemmas -/

theorem getValidCode_none_of_expired (codes : List CodeRec) (now : Nat) (tid : String)
    (h : ∀ c ∈ codes, c.transferId = tid → c.expiresAt ≤ now) :
    getValidCode codes now tid = none := by
  unfold getValidCode
  refine List.find?_eq_none.mpr ?_
  intro c hc hp
  rw [Bool.and_eq_true, Bool.and_eq_true] at hp
  obtain ⟨⟨ht, _⟩, hlt⟩ := hp
  rw [beq_iff_eq] at ht
  rw [decide_eq_true_eq] at hlt
  have := h c hc ht
  omega

theorem checked_merged_invalid (st : St) (req : TransferReq) (u : UserRec)
    (h1 : req.securityCode.isEmpty = false) (h2 : req.transferId.isEmpty = false)
    (h3 : getValidCode st.codes st.now req.transferId = none) :
    (createTransferChecked st req u).2 = resp400 "Invalid or expired security code" := by
  simp [createTransferChecked, h1, h2, h3]

/-! ## Claim theorems -/

/-- C1.  The claim says a first `execute` with the correct code, matching
`transferId`, owning sender and unexpired code succeeds in consuming the
code.  On the shipped code it does not: the call dies on the
`selectedBlockchain` ReferenceError and returns 500 with the state (and
the code's `isUsed` flag) untouched.  Even with that slip repaired
(`createTransferHoisted`) the call cannot succeed: `transfer.save()`
throws the blockchain-enum ValidationError (`'ethereum'` is not in the
Transfer schema's enum) and the call again returns 500 — but by then the
code *has* been consumed, exactly once: the first repaired call marks it
used and writes no Transfer, a second identical call fails with the
already-used/invalid-or-expired error, and `getValidCode` returns
nothing once `isUsed` is true. -/
theorem C1_execute_crashes_before_consuming :
    createTransfer stGood reqExec = (stGood, resp500 "Internal server error") ∧
    (createTransferHoisted stGood reqExec).1.codes =
      [{ codeAlice with isUsed := true, usedAt := some 60000 }] ∧
    (createTransferHoisted stGood reqExec).2 = resp500 "Internal server error" ∧
    (createTransferHoisted stGood reqExec).1.transfers = [] ∧
    (createTransferHoisted (createTransferHoisted stGood reqExec).1 reqExec).2 =
      resp400 "Invalid or expired security code" ∧
    getValidCode (markAsUsed [codeAlice] 60000 "tid-1") 60000 "tid-1" = none := by
  exact ⟨rfl, by decide, rfl, by decide, rfl, by decide⟩

/-- C2.  The claim says code consumption is a single atomic
read-modify-write, so that of N racing `execute` calls exactly one
consumes the code.  In the source it is a separate `findOne`
(`getValidCode` plus in-memory checks) followed by a later `save`
(`markAsUsed`): under the interleaving read₁‑read₂‑write₁‑write₂ both
calls pass validation and both proceed to consume the same code, whereas
run sequentially the second call is rejected.  (In the shipped code
neither racing call even reaches this step: each fails with the
500 ReferenceError response, so zero — not exactly one — succeed.) -/
theorem C2_consumption_read_write_race :
    (raceInterleaved [codeAlice] 60000 "tid-1" "123456" "alice-uid").1 = (true, true) ∧
    (raceSequential [codeAlice] 60000 "tid-1" "123456" "alice-uid").1 = (true, false) ∧
    createTransfer stGood reqExec = (stGood, resp500 "Internal server error") := by
  exact ⟨by decide, by decide, rfl⟩

/-- C4.  The claim says an `execute` with a code owned by a different
user fails with HTTP 403 and creates no Transfer.  The shipped code does
fail without creating a Transfer or consuming the code, but with the
500 ReferenceError response rather than 403; with the slip repaired the
call returns exactly the claimed 403 with the state unchanged. -/
theorem C4_ownership_mismatch_returns_500 :
    createTransfer stBobCode reqExec = (stBobCode, resp500 "Internal server error") ∧
    createTransferHoisted stBobCode reqExec =
      (stBobCode, ⟨403, false, "Security code does not belong to this user", none⟩) := by
  exact ⟨rfl, rfl⟩

/-- C5.  The claim says that with the settlement service unavailable,
`execute` marks the Transfer failed, returns a 503 with the transferId
and status "failed", never calls submit, and assigns no external
reference.  The shipped code instead dies on the ReferenceError and
returns 500 without creating any Transfer row; and even with that slip
repaired the `isAvailable()` check is never consulted, because
`transfer.save()` throws the blockchain-enum ValidationError first
(`'ethereum'` is not in the Transfer schema's enum) — again 500, no row,
submit never called (first four conjuncts).  The 503 branch as coded
(`transferSubmit` from the save onward, exercised directly with an
enum-valid chain) does match the claim's description — 503, one failed
row with the service-unavailable `errorMessage`, empty submission log,
no `circleTransactionId` — but no reachable input of the controller gets
there, since `getWalletInfo` only lets the lowercase User-wallet chains
through and the enum rejects them all. -/
theorem C5_unavailable_returns_500_no_transfer :
    createTransfer stNoCircle reqExec = (stNoCircle, resp500 "Internal server error") ∧
    (createTransferHoisted stNoCircle reqExec).2 = resp500 "Internal server error" ∧
    (createTransferHoisted stNoCircle reqExec).1.transfers = [] ∧
    (createTransferHoisted stNoCircle reqExec).1.txLog = [] ∧
    (transferSubmit stNoCircle reqExec alice
        ⟨"wallet-alice-eth", extAddr, "ETH-SEPOLIA"⟩ "ETH-SEPOLIA" extAddr).2.status = 503 ∧
    (transferSubmit stNoCircle reqExec alice
        ⟨"wallet-alice-eth", extAddr, "ETH-SEPOLIA"⟩ "ETH-SEPOLIA" extAddr).2.message =
      "Blockchain service temporarily unavailable. Please try again later." ∧
    (transferSubmit stNoCircle reqExec alice
        ⟨"wallet-alice-eth", extAddr, "ETH-SEPOLIA"⟩ "ETH-SEPOLIA" extAddr).1.transfers.map
      (·.status) = ["failed"] ∧
    (transferSubmit stNoCircle reqExec alice
        ⟨"wallet-alice-eth", extAddr, "ETH-SEPOLIA"⟩ "ETH-SEPOLIA" extAddr).1.transfers.map
      (·.errorMessage) = [some "Circle API service not available"] ∧
    (transferSubmit stNoCircle reqExec alice
        ⟨"wallet-alice-eth", extAddr, "ETH-SEPOLIA"⟩ "ETH-SEPOLIA" extAddr).1.transfers.map
      (·.circleTransactionId) = [none] ∧
    (transferSubmit stNoCircle reqExec alice
        ⟨"wallet-alice-eth", extAddr, "ETH-SEPOLIA"⟩ "ETH-SEPOLIA" extAddr).1.txLog = [] ∧
    (transferSubmit stNoCircle reqExec alice
        ⟨"wallet-alice-eth", extAddr, "ETH-SEPOLIA"⟩ "ETH-SEPOLIA" extAddr).2.data =
      some (.obj [("transferId", .str "tr-1"), ("status", .str "failed"),
                  ("error", .str "Circle API service not available")]) := by
  refine ⟨rfl, rfl, by decide, by decide, rfl, rfl, by decide, by decide, by decide,
    by decide, rfl⟩

/-- C3 (counterexample).  The claim says each validation failure of
`execute` has its own distinct error and that an expired code always
yields the `CodeExpired` error.  On the shipped code an expired-code
`execute` returns the generic 500 ReferenceError response; and even the
validation fragment itself (reached only with the slip repaired) answers
an expired code with exactly the same "Invalid or expired security code"
response it gives for a completely absent code — there is no distinct
expiry error. -/
theorem C3_counterexample_expired_not_distinct :
    createTransfer stExpired reqExec = (stExpired, resp500 "Internal server error") ∧
    (createTransferChecked stExpired reqExec alice).2 =
      resp400 "Invalid or expired security code" ∧
    (createTransferChecked stNoCode reqExec alice).2 =
      resp400 "Invalid or expired security code" := by
  exact ⟨rfl, rfl, rfl⟩

/-- C3 (amended).  What the validation fragment actually does, in order:
(1) absent, expired (`expiresAt ≤ now`) and already-used codes all merge
into the same 400 "Invalid or expired security code"; (2) a present valid
code with a different value gives 400 "Invalid security code"; (3) then a
foreign owner gives the 403; (4) an expired code yields the merged error
regardless of the supplied value; and (5) in the shipped `createTransfer`
the fragment is unreachable — every call that passes sender and
(external-)recipient validation returns the 500 ReferenceError response
with the state unchanged. -/
theorem C3_merged_validation_order :
    (∀ st req u, req.securityCode.isEmpty = false → req.transferId.isEmpty = false →
      getValidCode st.codes st.now req.transferId = none →
      (createTransferChecked st req u).2 = resp400 "Invalid or expired security code") ∧
    (∀ st req u c, req.securityCode.isEmpty = false → req.transferId.isEmpty = false →
      getValidCode st.codes st.now req.transferId = some c →
      c.code ≠ req.securityCode →
      (createTransferChecked st req u).2 = resp400 "Invalid security code") ∧
    (∀ st req u c, req.securityCode.isEmpty = false → req.transferId.isEmpty = false →
      getValidCode st.codes st.now req.transferId = some c →
      c.code = req.securityCode → c.userId ≠ u.uid →
      (createTransferChecked st req u).2 =
        ⟨403, false, "Security code does not belong to this user", none⟩) ∧
    (∀ st req u, req.securityCode.isEmpty = false → req.transferId.isEmpty = false →
      (∀ c ∈ st.codes, c.transferId = req.transferId → c.expiresAt ≤ st.now) →
      (createTransferChecked st req u).2 = resp400 "Invalid or expired security code") ∧
    (∀ st req, req.senderId.isEmpty = false →
      (∃ u, findUserByIdentifier st.users req.senderId = some u) →
      req.recipientType = "external" → isValidWalletAddress req.recipient = true →
      createTransfer st req = (st, resp500 "Internal server error")) := by
  refine ⟨?_, ?_, ?_, ?_, ?_⟩
  · exact checked_merged_invalid
  · intro st req u c h1 h2 h3 h4
    simp [createTransferChecked, h1, h2, h3, bne_iff_ne, h4]
  · intro st req u c h1 h2 h3 h4 h5
    simp [createTransferChecked, h1, h2, h3, h4, bne_iff_ne, h5]
  · intro st req u h1 h2 h3
    exact checked_merged_invalid st req u h1 h2
      (getValidCode_none_of_expired st.codes st.now req.transferId h3)
  · intro st req h1 hu h3 h4
    obtain ⟨u, h2⟩ := hu
    simp [createTransfer, h1, h2, h3, h4]

/-- C3 (witness): the amended theorem applied at concrete states — absent
code, mismatched value, foreign owner, expired code, and an execute call
that crashes with 500. -/
theorem C3_merged_validation_order_witness :
    (createTransferChecked stNoCode reqExec alice).2 =
      resp400 "Invalid or expired security code" ∧
    (createTransferChecked stGood { reqExec with securityCode := "999999" } alice).2 =
      resp400 "Invalid security code" ∧
    (createTransferChecked stBobCode reqExec alice).2 =
      ⟨403, false, "Security code does not belong to this user", none⟩ ∧
    (createTransferChecked stExpired reqExec alice).2 =
      resp400 "Invalid or expired security code" ∧
    createTransfer stGood reqExec = (stGood, resp500 "Internal server error") := by
  refine ⟨?_, ?_, ?_, ?_, ?_⟩
  · exact C3_merged_validation_order.1 stNoCode reqExec alice rfl rfl rfl
  · exact C3_merged_validation_order.2.1 stGood _ alice codeAlice rfl rfl rfl (by decide)
  · exact C3_merged_validation_order.2.2.1 stBobCode reqExec alice codeBob rfl rfl rfl rfl
      (by decide)
  · exact C3_merged_validation_order.2.2.2.1 stExpired reqExec alice rfl rfl (by decide)
  · exact C3_merged_validation_order.2.2.2.2 stGood reqExec rfl ⟨alice, rfl⟩ rfl rfl

/-- C6 (counterexample).  The claim says token resolution is keyed by the
pair (symbol, chain) and that an unmapped pair fails with the
unsupported-token error.  `getTokenId` returns the very same id for
`USDC` on `ETH` and on a chain name that appears nowhere in the code, so
the chain argument is ignored and an unmapped pair does not fail. -/
theorem C6_counterexample_chain_ignored :
    getTokenId "USDC" "ETH" = some "738c8a6d-8896-46d1-b2cb-083600c1c69b" ∧
    getTokenId "USDC" "NO-SUCH-CHAIN" = some "738c8a6d-8896-46d1-b2cb-083600c1c69b" := by
  exact ⟨by decide, by decide⟩

/-- C6 (amended).  Token resolution is a pure lookup keyed by the symbol
alone: `getTokenId` is independent of the chain argument (the computed
`symbol_chain` key is discarded by the source) and equals the lookup of
the symbol in the static table; only an unmapped symbol yields `null`,
and in the `createTransfer` step that consults it a `null` answer
produces the 400 unsupported-token response (a step reachable only with
the `selectedBlockchain` slip repaired). -/
theorem C6_symbol_only_lookup :
    (∀ symbol chain chain2, getTokenId symbol chain = getTokenId symbol chain2) ∧
    (∀ symbol chain, getTokenId symbol chain = getSupportedTokens.lookup symbol) ∧
    (∀ st req u w bc dest, getTokenId req.token bc = none →
      transferSubmit st req u w bc dest =
        (st, resp400 ("Token " ++ req.token ++ " is not supported on " ++ bc))) := by
  refine ⟨fun _ _ _ => rfl, fun _ _ => rfl, ?_⟩
  intro st req u w bc dest h
  simp [transferSubmit, h]

/-- C6 (witness): the amended theorem applied to a concrete unmapped
symbol. -/
theorem C6_symbol_only_lookup_witness :
    transferSubmit stGood { reqExec with token := "DOGE" } alice
      ⟨"wallet-alice-eth", "0xfeedfeedfeedfeedfeedfeedfeedfeedfeedfeed", "ethereum"⟩
      "ethereum" extAddr =
      (stGood, resp400 ("Token " ++ "DOGE" ++ " is not supported on " ++ "ethereum")) := by
  exact C6_symbol_only_lookup.2.2 stGood _ alice _ "ethereum" extAddr (by decide)

theorem reEthAddress_iff (s : String) : reEthAddress s = true ↔ HexShape s := by
  unfold reEthAddress HexShape
  cases hd : s.data with
  | nil => simp
  | cons c1 tl =>
    cases tl with
    | nil => simp
    | cons c2 rest =>
      simp [Bool.and_eq_true, beq_iff_eq, List.all_eq_true, List.cons.injEq, and_assoc]

theorem reAlnumRange_iff (lo hi : Nat) (s : String) :
    reAlnumRange lo hi s = true ↔ AlnumShape lo hi s := by
  simp [reAlnumRange, AlnumShape, List.all_eq_true, Bool.and_eq_true, decide_eq_true_eq,
    and_assoc]

/-- C7 (counterexample).  The claim says the classifier accepts exactly
the three shapes with a Base58-style range of 25–35 characters.  A
25-character alphanumeric address is inside the claimed shapes but the
source regex floor is 26, so the code rejects it: `requestSecurityCode`
(and `createTransfer`) answer 400 "Invalid external wallet address
format" and no code record is created (the state is unchanged). -/
theorem C7_counterexample_25char :
    specAddressShapes addr25 = true ∧
    isValidWalletAddress addr25 = false ∧
    requestSecurityCode stGood { reqExec with recipient := addr25 } =
      (stGood, resp400 "Invalid external wallet address format") ∧
    createTransfer stGood { reqExec with recipient := addr25 } =
      (stGood, resp400 "Invalid external wallet address format") := by
  exact ⟨by decide, by decide, rfl, rfl⟩

/-- C7 (amended).  The classifier accepts an address iff it is
hex-prefixed fixed-length (`0x` + 40 hex characters), alphanumeric of
length 26–35, or alphanumeric of length 32–44 — a pure function of the
string; and an external recipient matching none of the shapes makes both
`requestSecurityCode` and `createTransfer` fail with the 400
invalid-address response, leaving the state unchanged (no code is
created). -/
theorem C7_address_shapes_floor_26 :
    (∀ s, isValidWalletAddress s = true ↔
      (HexShape s ∨ AlnumShape 26 35 s ∨ AlnumShape 32 44 s)) ∧
    (∀ st req, req.senderId.isEmpty = false →
      (∃ u, findUserByIdentifier st.users req.senderId = some u) →
      req.recipientType = "external" → isValidWalletAddress req.recipient = false →
      requestSecurityCode st req = (st, resp400 "Invalid external wallet address format") ∧
      createTransfer st req = (st, resp400 "Invalid external wallet address format")) := by
  constructor
  · intro s
    simp [isValidWalletAddress, Bool.or_eq_true, reEthAddress_iff, reAlnumRange_iff,
      or_assoc]
  · intro st req h1 hu h3 h4
    obtain ⟨u, h2⟩ := hu
    constructor
    · simp [requestSecurityCode, h1, h2, h3, h4]
    · simp [createTransfer, h1, h2, h3, h4]

/-- C7 (witness): the amended theorem applied at concrete inputs — the
characterization at the fixture hex address, and the rejection at a
concrete malformed external recipient. -/
theorem C7_address_shapes_floor_26_witness :
    (HexShape extAddr ∨ AlnumShape 26 35 extAddr ∨ AlnumShape 32 44 extAddr) ∧
    requestSecurityCode stGood { reqExec with recipient := "not*a*valid*address" } =
      (stGood, resp400 "Invalid external wallet address format") := by
  constructor
  · exact (C7_address_shapes_floor_26.1 extAddr).mp (by decide)
  · exact (C7_address_shapes_floor_26.2 stGood
      { reqExec with recipient := "not*a*valid*address" } rfl ⟨alice, rfl⟩ rfl (by decide)).1

theorem hasKey_optStr (k : String) (o : Option String) :
    Json.hasKey k (optStr o) = false := by
  cases o <;> simp [optStr, Json.hasKey]

theorem hasKey_optNum (k : String) (o : Option Nat) :
    Json.hasKey k (optNum o) = false := by
  cases o <;> simp [optNum, Json.hasKey]

theorem sanitize_noKey (t : TransferRec) :
    Json.hasKey "securityCode" (sanitizeTransfer t) = false := by
  simp [sanitizeTransfer, Json.hasKey, Json.fieldsHasKey, hasKey_optStr, hasKey_optNum]

theorem sanitizeDetail_noKey (t : TransferRec) :
    Json.hasKey "securityCode" (sanitizeTransferDetail t) = false := by
  simp [sanitizeTransferDetail, Json.hasKey, Json.fieldsHasKey, hasKey_optStr, hasKey_optNum]

theorem anyHasKey_map_sanitize (ts : List TransferRec) :
    Json.anyHasKey "securityCode" (ts.map sanitizeTransfer) = false := by
  induction ts with
  | nil => rfl
  | cons t ts ih => simp [Json.anyHasKey, sanitize_noKey, ih]

/-- C8.  No public response carries the security code: a successful
`requestSecurityCode` body holds exactly the `transferId` and the
`"5 minutes"` expiry (no code field), and neither `getUserTransfers` nor
`getTransferById` ever produces a `securityCode` property anywhere in its
JSON body (for any store state, including stores whose Transfer documents
do carry the `securityCode` field). -/
theorem C8_responses_never_expose_code :
    (∀ st req, (requestSecurityCode st req).2.status = 200 →
      (requestSecurityCode st req).2.data =
        some (.obj [("transferId", .str st.freshTransferId),
                    ("expiresIn", .str "5 minutes")])) ∧
    (∀ st q, respHasKey "securityCode" (getUserTransfers st q).2 = false) ∧
    (∀ st id q, respHasKey "securityCode" (getTransferById st id q).2 = false) := by
  refine ⟨?_, ?_, ?_⟩
  · intro st req h
    revert h
    unfold requestSecurityCode requestCodeIssue
    split
    · intro h; simp [resp400] at h
    · split
      · intro h; simp [resp400] at h
      · split
        · split
          · intro h; simp [resp400] at h
          · split
            · intro h; simp [resp500] at h
            · intro _; rfl
        · split
          · split
            · intro h; simp [resp400] at h
            · split
              · intro h; simp [resp500] at h
              · intro _; rfl
          · intro h; simp [resp400] at h
  · intro st q
    unfold getUserTransfers
    split
    · rfl
    · split
      · rfl
      · simp [respHasKey, Json.hasKey, Json.fieldsHasKey, anyHasKey_map_sanitize]
  · intro st id q
    unfold getTransferById
    split
    · rfl
    · split
      · rfl
      · split
        · rfl
        · split
          · rfl
          · simp [respHasKey, sanitizeDetail_noKey]

/-- C8 (witness): the theorem applied at a concrete successful
`requestSecurityCode` call and at concrete history/detail reads over a
store that does hold a Transfer with a stored `securityCode`. -/
theorem C8_responses_never_expose_code_witness :
    (requestSecurityCode stGood reqExec).2.data =
      some (.obj [("transferId", .str stGood.freshTransferId),
                  ("expiresIn", .str "5 minutes")]) ∧
    respHasKey "securityCode" (getUserTransfers stWithTransfer "alice-uid").2 = false ∧
    respHasKey "securityCode" (getTransferById stWithTransfer "tr-9" "alice-uid").2 = false := by
  exact ⟨C8_responses_never_expose_code.1 stGood reqExec rfl,
    C8_responses_never_expose_code.2.1 stWithTransfer "alice-uid",
    C8_responses_never_expose_code.2.2 stWithTransfer "tr-9" "alice-uid"⟩

theorem applyOps_append (now : Nat) (t : TransferRec) (a b : List TOp) :
    applyOps now t (a ++ b) = applyOps now (applyOps now t a) b := by
  induction a generalizing t with
  | nil => rfl
  | cons op ops ih => simp [applyOps, ih]

theorem agree_refl (t : TransferRec) : agreesExceptEnrichment t t := rfl

theorem agree_update (t : TransferRec) (now : Nat) (s : String) :
    agreesExceptEnrichment t (t.updateCircleStatus now s) := rfl

theorem agree_trans {a b c : TransferRec} (hab : agreesExceptEnrichment a b)
    (hbc : agreesExceptEnrichment b c) : agreesExceptEnrichment a c := by
  unfold agreesExceptEnrichment at *
  rw [hbc, hab]

theorem agree_status {a b : TransferRec} (h : agreesExceptEnrichment a b) :
    b.status = a.status := by
  rw [h]

theorem circle_tail_agrees (now : Nat) (l : List TOp)
    (hl : ∀ op ∈ l, ∃ s, op = TOp.circleStatus s) (t : TransferRec) :
    agreesExceptEnrichment t (applyOps now t l) := by
  induction l generalizing t with
  | nil => exact agree_refl t
  | cons op ops ih =>
    obtain ⟨s, rfl⟩ := hl op (by simp)
    have h2 := ih (fun o ho => hl o (by simp [ho])) (applyOp now t (.circleStatus s))
    exact agree_trans (agree_update t now s) h2

/-- Every reachable operation sequence is one of the three
`createTransfer` shapes followed by reconciler refreshes. -/
theorem reachable_decomp {ops : List TOp} (h : ReachableOps ops) :
    ∃ base tail, ops = base ++ tail ∧
      ((∃ m, base = [TOp.failed m]) ∨
       (∃ c hh, base = [TOp.processing, TOp.completed c hh]) ∨
       (∃ m, base = [TOp.processing, TOp.failed m])) ∧
      (∀ op ∈ tail, ∃ s, op = TOp.circleStatus s) := by
  induction h with
  | unavailable m =>
    exact ⟨[TOp.failed m], [], by simp, Or.inl ⟨m, rfl⟩, by simp⟩
  | submitOk c hh =>
    exact ⟨[TOp.processing, TOp.completed c hh], [], by simp,
      Or.inr (Or.inl ⟨c, hh, rfl⟩), by simp⟩
  | submitFail m =>
    exact ⟨[TOp.processing, TOp.failed m], [], by simp, Or.inr (Or.inr ⟨m, rfl⟩), by simp⟩
  | refresh ops s hr ih =>
    obtain ⟨base, tail, rfl, hb, ht⟩ := ih
    refine ⟨base, tail ++ [TOp.circleStatus s], by simp, hb, ?_⟩
    intro op hop
    rcases List.mem_append.mp hop with h1 | h1
    · exact ht op h1
    · simp at h1
      exact ⟨s, h1⟩

theorem mem_saveTransfer {ts : List TransferRec} {t t2 : TransferRec}
    (ht : t ∈ saveTransfer ts t2) : t = t2 ∨ t ∈ ts := by
  unfold saveTransfer at ht
  rcases List.mem_map.mp ht with ⟨x, hx, hfx⟩
  by_cases h : (x.id == t2.id) = true
  · rw [if_pos h] at hfx
    exact Or.inl hfx.symm
  · rw [if_neg h] at hfx
    exact Or.inr (hfx ▸ hx)

/-- C9.  Terminal statuses are immutable over every reachable operation
sequence: (1) for any reachable sequence applied to a pending Transfer,
once a prefix has a terminal status (`completed`/`failed`/`cancelled`),
every longer prefix keeps exactly that status, and the document can
change only in `circleTransactionStatus` and the `updatedAt` timestamp
(in particular `transactionHash` and all business fields are frozen);
(2) the reconciler endpoint `getTransferStatus` itself returns a store in
which every Transfer agrees with a stored original up to those same two
enrichment fields — it never changes any `status`. -/
theorem C9_terminal_status_immutable :
    (∀ ops, ReachableOps ops → ∀ now t0, t0.status = "pending" →
      ∀ l1 l2, ops = l1 ++ l2 →
      isTerminalStatus (applyOps now t0 l1).status = true →
      (applyOps now t0 (l1 ++ l2)).status = (applyOps now t0 l1).status ∧
      agreesExceptEnrichment (applyOps now t0 l1) (applyOps now t0 (l1 ++ l2))) ∧
    (∀ st id q t, t ∈ (getTransferStatus st id q).1.transfers →
      ∃ t0 ∈ st.transfers, agreesExceptEnrichment t0 t) := by
  constructor
  · intro ops hr now t0 ht0 l1 l2 heq hterm
    obtain ⟨base, tail, hops, hb, htail⟩ := reachable_decomp hr
    have hsplit : l1 ++ l2 = base ++ tail := by rw [← heq, hops]
    have main : (∀ op ∈ l2, ∃ s, op = TOp.circleStatus s) →
        (applyOps now t0 (l1 ++ l2)).status = (applyOps now t0 l1).status ∧
        agreesExceptEnrichment (applyOps now t0 l1) (applyOps now t0 (l1 ++ l2)) := by
      intro hl2
      have hag := circle_tail_agrees now l2 hl2 (applyOps now t0 l1)
      rw [applyOps_append]
      exact ⟨agree_status hag, hag⟩
    rcases List.append_eq_append_iff.mp hsplit with ⟨a2, hbase, hl2⟩ | ⟨c2, hl1, htail2⟩
    · have ha2 : a2 = [] := by
        rcases hb with ⟨m, hbeq⟩ | ⟨c, hh, hbeq⟩ | ⟨m, hbeq⟩ <;> rw [hbeq] at hbase
        · rcases l1 with _ | ⟨e1, l1t⟩
          · exfalso
            simp only [applyOps] at hterm
            rw [ht0] at hterm
            exact absurd hterm (by decide)
          · simp only [List.cons_append, List.cons.injEq] at hbase
            exact (List.append_eq_nil.mp hbase.2.symm).2
        · rcases l1 with _ | ⟨e1, _ | ⟨e2, l1tt⟩⟩
          · exfalso
            simp only [applyOps] at hterm
            rw [ht0] at hterm
            exact absurd hterm (by decide)
          · exfalso
            simp only [List.cons_append, List.nil_append, List.cons.injEq] at hbase
            obtain ⟨he1, -⟩ := hbase
            rw [← he1] at hterm
            simp only [applyOps, applyOp, TransferRec.markAsProcessing] at hterm
            exact absurd hterm (by decide)
          · simp only [List.cons_append, List.cons.injEq] at hbase
            exact (List.append_eq_nil.mp hbase.2.2.symm).2
        · rcases l1 with _ | ⟨e1, _ | ⟨e2, l1tt⟩⟩
          · exfalso
            simp only [applyOps] at hterm
            rw [ht0] at hterm
            exact absurd hterm (by decide)
          · exfalso
            simp only [List.cons_append, List.nil_append, List.cons.injEq] at hbase
            obtain ⟨he1, -⟩ := hbase
            rw [← he1] at hterm
            simp only [applyOps, applyOp, TransferRec.markAsProcessing] at hterm
            exact absurd hterm (by decide)
          · simp only [List.cons_append, List.cons.injEq] at hbase
            exact (List.append_eq_nil.mp hbase.2.2.symm).2
      refine main ?_
      intro op hop
      rw [ha2] at hl2
      simp only [List.nil_append] at hl2
      exact htail op (hl2 ▸ hop)
    · refine main ?_
      intro op hop
      exact htail op (htail2 ▸ List.mem_append_right c2 hop)
  · intro st id q t ht
    unfold getTransferStatus at ht
    split at ht
    · exact ⟨t, ht, agree_refl t⟩
    · split at ht
      · exact ⟨t, ht, agree_refl t⟩
      · split at ht
        · exact ⟨t, ht, agree_refl t⟩
        · rename_i transfer hfind
          have hmem : transfer ∈ st.transfers := by
            unfold findTransferById at hfind
            exact List.mem_of_find?_eq_some hfind
          split at ht
          · exact ⟨t, ht, agree_refl t⟩
          · dsimp only at ht
            split at ht
            · split at ht
              · split at ht
                · dsimp only at ht
                  rcases mem_saveTransfer ht with rfl | hm
                  · exact ⟨transfer, hmem, agree_update transfer st.now _⟩
                  · exact ⟨t, hm, agree_refl t⟩
                · exact ⟨t, ht, agree_refl t⟩
              · exact ⟨t, ht, agree_refl t⟩
            · exact ⟨t, ht, agree_refl t⟩

/-- C9 (witness): the theorem applied to the concrete reachable sequence
processing–completed–refresh on a pending document, and to a concrete
status read that refreshes a completed transfer's Circle status. -/
theorem C9_terminal_status_immutable_witness :
    ((applyOps 60000 pendingT
        ([TOp.processing, TOp.completed (some "ctx-1") (some "0xhash1")] ++
         [TOp.circleStatus "confirmed"])).status =
      (applyOps 60000 pendingT
        [TOp.processing, TOp.completed (some "ctx-1") (some "0xhash1")]).status) ∧
    (∃ t0 ∈ stWithTransfer.transfers,
      agreesExceptEnrichment t0
        { transferDone with circleTransactionStatus := "confirmed", updatedAt := 60000 }) := by
  constructor
  · exact (C9_terminal_status_immutable.1 _
      (ReachableOps.refresh _ "confirmed"
        (ReachableOps.submitOk (some "ctx-1") (some "0xhash1")))
      60000 pendingT rfl _ _ rfl (by decide)).1
  · exact C9_terminal_status_immutable.2 stWithTransfer "tr-9" "alice-uid" _ (by decide)

/-- C10.  `findUserByIdentifier` swallows store failures: when the user
store throws during the uid lookup, the function returns `none` exactly
as for an absent user, so `requestSecurityCode` and `createTransfer`
answer 400 "Sender not found" and the three read endpoints answer 400
"User not found" — a store outage is indistinguishable from absence (the
last conjunct: a store that genuinely has no match produces the same
`none`, hence the same literal responses). -/
theorem C10_store_failure_reported_as_not_found :
    ∀ (db : UserStore) (msg identifier : String), identifier.isEmpty = false →
      db.byUid identifier = .err msg →
      findUserByIdentifier db identifier = none ∧
      (∀ st req, st.users = db → req.senderId = identifier →
        requestSecurityCode st req = (st, resp400 "Sender not found") ∧
        createTransfer st req = (st, resp400 "Sender not found")) ∧
      (∀ st tid, st.users = db →
        getUserTransfers st identifier = (st, resp400 "User not found") ∧
        getTransferById st tid identifier = (st, resp400 "User not found") ∧
        getTransferStatus st tid identifier = (st, resp400 "User not found")) ∧
      (∀ db2 : UserStore, db2.byUid identifier = Lookup.absent →
        db2.byEmail identifier.toLower = Lookup.absent →
        db2.byWallet identifier = Lookup.absent →
        findUserByIdentifier db2 identifier = none) := by
  intro db msg identifier h1 h2
  have hnull : findUserByIdentifier db identifier = none := by
    simp [findUserByIdentifier, h1, h2]
  refine ⟨hnull, ?_, ?_, ?_⟩
  · intro st req hst hsid
    have hn : findUserByIdentifier st.users identifier = none := by
      rw [hst]
      exact hnull
    constructor
    · simp [requestSecurityCode, hsid, h1, hn]
    · simp [createTransfer, hsid, h1, hn]
  · intro st tid hst
    have hn : findUserByIdentifier st.users identifier = none := by
      rw [hst]
      exact hnull
    exact ⟨by simp [getUserTransfers, h1, hn],
      by simp [getTransferById, h1, hn],
      by simp [getTransferStatus, h1, hn]⟩
  · intro db2 ha hb hc
    simp [findUserByIdentifier, h1, ha, hb, hc]

/-- C10 (witness): the theorem applied to a concrete throwing store and
concrete requests from alice. -/
theorem C10_store_failure_witness :
    findUserByIdentifier dbErr "alice-uid" = none ∧
    requestSecurityCode stErr reqExec = (stErr, resp400 "Sender not found") ∧
    createTransfer stErr reqExec = (stErr, resp400 "Sender not found") ∧
    getUserTransfers stErr "alice-uid" = (stErr, resp400 "User not found") ∧
    getTransferById stErr "tr-9" "alice-uid" = (stErr, resp400 "User not found") ∧
    getTransferStatus stErr "tr-9" "alice-uid" = (stErr, resp400 "User not found") ∧
    findUserByIdentifier
      ⟨fun _ => Lookup.absent, fun _ => Lookup.absent, fun _ => Lookup.absent⟩
      "alice-uid" = none := by
  have h := C10_store_failure_reported_as_not_found dbErr "connection reset" "alice-uid"
    rfl rfl
  exact ⟨h.1, (h.2.1 stErr reqExec rfl rfl).1, (h.2.1 stErr reqExec rfl rfl).2,
    (h.2.2.1 stErr "tr-9" rfl).1, (h.2.2.1 stErr "tr-9" rfl).2.1,
    (h.2.2.1 stErr "tr-9" rfl).2.2,
    h.2.2.2 ⟨fun _ => Lookup.absent, fun _ => Lookup.absent, fun _ => Lookup.absent⟩
      rfl rfl rfl⟩

end P2P
